import Mathlib

/-
Verification of the BAC0 device/point layer (src/BAC0/core/devices/Points.py
and src/BAC0/core/devices/Device.py) through a shallow embedding in Lean.
Each definition below is translated from the named Python function; theorems
settle the frozen claims about them.
-/

namespace BAC0

/-- Boolean test that the first character list is a prefix of the second.
Used to embed the Python substring operator on strings. -/
def pfxOf : List Char → List Char → Bool
  | [], _ => true
  | _ :: _, [] => false
  | a :: as, b :: bs => a == b && pfxOf as bs

/-- Boolean test that the first character list occurs contiguously inside the
second one. -/
def hasSubList (needle : List Char) : List Char → Bool
  | [] => needle.isEmpty
  | c :: rest => pfxOf needle (c :: rest) || hasSubList needle rest

/-- Embedding of the Python `needle in hay` substring operator. -/
def strHas (hay needle : String) : Bool :=
  hasSubList needle.toList hay.toList

/-- Embedding of the Python str.lower() (ASCII case folding, which covers the
object-type and command strings this code compares). -/
def lowerStr (s : String) : String :=
  String.mk (s.toList.map Char.toLower)

/-- The protocol action selected by Point._setitem
(src/BAC0/core/devices/Points.py, lines 494-526).
* `write v` stands for `asyncio.create_task(self.write(value))` (a direct
  present-value write),
* `ovr 8 v` for `Point.ovr` (write at priority 8, overridden flag set),
* `auto` for `Point.auto` (a "null" write at priority 8, overridden cleared),
* `release` for `Point.release` (clearing outOfService so the controller
  regains control, ending a simulation),
* `sim v` for `Point.sim` (out-of-service plus present-value write). -/
inductive SetAction where
  | write (v : String)
  | ovr (prio : Nat) (v : String)
  | auto
  | release
  | sim (v : String)
deriving DecidableEq, Repr

/-- Embedding of Point._setitem: routes a requested value by the point's
protocol object type string, exactly in the source's branch order
("characterstring" checked before "value" before "output", everything else
simulated). `lowerStr value = "auto"` embeds `str(value).lower() == "auto"`. -/
def setitem (ptype value : String) : Except String SetAction :=
  if strHas ptype "characterstring" = true then
    Except.ok (SetAction.write value)
  else if strHas ptype "value" = true then
    if lowerStr value = "auto" then
      Except.error "Value was not simulated or overridden, cannot release to auto"
    else
      Except.ok (SetAction.write value)
  else if strHas ptype "output" = true then
    if lowerStr value = "auto" then
      Except.ok SetAction.auto
    else
      Except.ok (SetAction.ovr 8 value)
  else
    if lowerStr value = "auto" then
      Except.ok SetAction.release
    else
      Except.ok (SetAction.sim value)

/-- A Python runtime value as needed to embed Point.is_overridden: the method
is a synchronous property that calls the async methods read_priority_array,
priority(8) and priority(1) without awaiting them, so the two slot tests
evaluate to coroutine objects. -/
inductive PyVal where
  | vbool (b : Bool)
  | vnone
  | vcoroutine
deriving DecidableEq, Repr

/-- Python truthiness for the values above: an (unawaited) coroutine object is
truthy. -/
def pyTruthy : PyVal → Bool
  | PyVal.vbool b => b
  | PyVal.vnone => false
  | PyVal.vcoroutine => true

/-- Priority-array state of a point: whether properties.priority_array is a
real array (not the `False` unsupported sentinel), and the decoded value held
in each of the 16 slots (index i holds priority i+1; `none` is the empty
tuple-typed placeholder). -/
structure PrioPoint where
  priorityArraySupported : Bool
  slots : Fin 16 → Option Int

/-- Embedding of Point.is_overridden (src/BAC0/core/devices/Points.py,
lines 251-260). The statement `self.read_priority_array()` builds a coroutine
that is never awaited, so it has no effect on the state; the slot tests
`self.priority(8) or self.priority(1)` evaluate the truthiness of two
unawaited coroutine objects, never the slots themselves. -/
def is_overridden_code (p : PrioPoint) : Bool :=
  if p.priorityArraySupported = false then
    false
  else
    pyTruthy PyVal.vcoroutine || pyTruthy PyVal.vcoroutine

/-- Modelled from the claim's words, for comparison with is_overridden_code:
overridden iff slot 1 or slot 8 of the priority array holds a value, and
always false when the array is unsupported. Slot 8 is index 7, slot 1 is
index 0. -/
def is_overridden_claimed (p : PrioPoint) : Bool :=
  if p.priorityArraySupported = false then
    false
  else
    (p.slots 7).isSome || (p.slots 0).isSome

/-- A Python value passed as the `command` argument of Point._poll. -/
inductive PyCmd where
  | pstr (s : String)
  | pbool (b : Bool)
  | pint (n : Int)
deriving DecidableEq, Repr

/-- Python str(command). -/
def pyStrOf : PyCmd → String
  | PyCmd.pstr s => s
  | PyCmd.pbool true => "True"
  | PyCmd.pbool false => "False"
  | PyCmd.pint n => toString n

/-- Python `command is False`. -/
def pyIsFalse : PyCmd → Bool
  | PyCmd.pbool false => true
  | _ => false

/-- Python `command == 0` (in Python, False == 0 and True == 1). -/
def pyEqZero : PyCmd → Bool
  | PyCmd.pint n => n == 0
  | PyCmd.pbool b => !b
  | PyCmd.pstr _ => false

/-- The `_polling_task` pair of a point: the task handle (modelled by the
delay it was created with) and the running flag. -/
structure PollTaskState where
  task : Option Int
  running : Bool
deriving DecidableEq, Repr

/-- Observable task operations performed by Point._poll. -/
inductive PollAct where
  | stopTask
  | startTask (delay : Int)
deriving DecidableEq, Repr

/-- The stop condition of Point._poll:
`str(command).lower() == "stop" or command is False or command == 0 or delay == 0`. -/
def pollStopRequested (cmd : PyCmd) (delay : Int) : Bool :=
  (lowerStr (pyStrOf cmd) == "stop") || pyIsFalse cmd || pyEqZero cmd || (delay == 0)

/-- Embedding of Point._poll (src/BAC0/core/devices/Points.py, lines 538-568):
stop requests stop and clear an existing task (and are a no-op without one);
with no task a new one is created and started; with a running task the old is
stopped before a new one starts; a non-running task object is a RuntimeError. -/
def point_poll (cmd : PyCmd) (delay : Int) (s : PollTaskState) :
    Except String (PollTaskState × List PollAct) :=
  if pollStopRequested cmd delay = true then
    match s.task with
    | some _ => Except.ok (({ task := none, running := false } : PollTaskState), [PollAct.stopTask])
    | none => Except.ok (s, [])
  else
    match s.task with
    | none =>
      Except.ok (({ task := some delay, running := true } : PollTaskState), [PollAct.startTask delay])
    | some _ =>
      if s.running = true then
        Except.ok (({ task := some delay, running := true } : PollTaskState),
          [PollAct.stopTask, PollAct.startTask delay])
      else
        Except.error "Stop polling before redefining it"

/-- The connection states a device object can be re-classed to. RPM is the
full state (ReadPropertyMultiple), RPD the degraded single-property state. -/
inductive DeviceState where
  | disconnected
  | rpmConnected
  | rpdConnected
  | fromDB
deriving DecidableEq, Repr

/-- Outcome of the objectName / segmentationSupported reads inside the try
block of DeviceDisconnected.connect. `ok n` carries the numerator of the
segmentationSupported enumeration (3 encodes no-segmentation in the BACnet
Segmentation enumeration). -/
inductive ConnectOutcome where
  | ok (segNumerator : Nat)
  | segmentationNotSupported
  | noResponse
deriving DecidableEq, Repr

/-- Embedding of DeviceDisconnected.connect (src/BAC0/core/devices/Device.py,
lines 855-908) for a device that has a live network. `seg0` is the prior
segmentation_supported flag (left unchanged on no-response), `db_name` the
persisted database name if any. Returns the target state and the new flag. -/
def disconnected_connect (seg0 : Bool) (outcome : ConnectOutcome)
    (db_name : Option String) : DeviceState × Bool :=
  match outcome with
  | ConnectOutcome.ok n =>
    let seg := if n == 3 then false else true
    if seg then (DeviceState.rpmConnected, seg) else (DeviceState.rpdConnected, seg)
  | ConnectOutcome.segmentationNotSupported => (DeviceState.rpdConnected, false)
  | ConnectOutcome.noResponse =>
    match db_name with
    | some _ => (DeviceState.fromDB, seg0)
    | none => (DeviceState.disconnected, seg0)

/-- The connected-only operations the not-connected claim enumerates. -/
inductive DevOp where
  | getitem
  | iterPoints
  | lenPoints
  | df
  | poll
  | buildPointList
  | setitem
  | analogUnits
  | temperatures
  | percent
  | multiStates
  | binaryStates
deriving DecidableEq, Repr

/-- Which of the listed operations raise DeviceNotConnected in class
DeviceDisconnected (src/BAC0/core/devices/Device.py, lines 910-977): every
one of them is overridden there to raise. -/
def deviceDisconnected_rejects : DevOp → Bool
  | DevOp.getitem => true
  | DevOp.iterPoints => true
  | DevOp.lenPoints => true
  | DevOp.df => true
  | DevOp.poll => true
  | DevOp.buildPointList => true
  | DevOp.setitem => true
  | DevOp.analogUnits => true
  | DevOp.temperatures => true
  | DevOp.percent => true
  | DevOp.multiStates => true
  | DevOp.binaryStates => true

/-- Which of the listed operations raise DeviceNotConnected in class
DeviceFromDB (src/BAC0/core/devices/Device.py, lines 988-1115). DeviceFromDB
extends DeviceConnected and overrides only _buildPointList, read_multiple,
poll, __contains__, to_excel, __setitem__, _discoverPoints and
simulated_points to raise; __getitem__, __iter__, __len__, df and the
aggregate views are inherited from DeviceConnected and are served from the
restored offline point collection. -/
def deviceFromDB_rejects : DevOp → Bool
  | DevOp.getitem => false
  | DevOp.iterPoints => false
  | DevOp.lenPoints => false
  | DevOp.df => false
  | DevOp.poll => true
  | DevOp.buildPointList => true
  | DevOp.setitem => true
  | DevOp.analogUnits => false
  | DevOp.temperatures => false
  | DevOp.percent => false
  | DevOp.multiStates => false
  | DevOp.binaryStates => false

/-- The `_history` pair of a point: parallel lists of timestamps and values,
newest appended last. Times are in milliseconds. -/
structure Hist (α : Type) where
  ts : List Nat
  vals : List α
deriving DecidableEq, Repr

/-- The history seeded by Point.__init__ (src/BAC0/core/devices/Points.py,
lines 123-125): one initial (timestamp, presentValue) entry. -/
def initHist (t0 : Nat) (pv : α) : Hist α := { ts := [t0], vals := [pv] }

/-- The last `n` elements of a list, embedding the Python slice `l[-n:]` for
`n ≥ 1`. -/
def lastN (n : Nat) (l : List α) : List α := l.drop (l.length - n)

/-- Embedding of Point._trend (src/BAC0/core/devices/Points.py, lines
278-302) with no backing database attached (network.database is None):
append (now, res), then, when a history size is configured, clamp the bound
to at least 1 and keep the last `history_size` entries once the timestamp
list has reached the bound. Returns the possibly clamped bound and the
new history. -/
def trend (hSize : Option Nat) (h : Hist α) (now : Nat) (res : α) :
    Option Nat × Hist α :=
  let ts := h.ts ++ [now]
  let vs := h.vals ++ [res]
  match hSize with
  | none => (none, { ts := ts, vals := vs })
  | some b0 =>
    let b := if b0 < 1 then 1 else b0
    if b ≤ ts.length then
      (some b, { ts := lastN b ts, vals := lastN b vs })
    else
      (some b, { ts := ts, vals := vs })

/-- A sequence of trend appends, one per (timestamp, value) read. -/
def runTrend (hSize : Option Nat) (h : Hist α) :
    List (Nat × α) → Option Nat × Hist α
  | [] => (hSize, h)
  | (t, v) :: rest =>
    let s := trend hSize h t v
    runTrend s.1 s.2 rest

/-- Point._cache_delta: 1 second, in milliseconds. -/
def cacheDeltaMs : Nat := 1000

/-- Embedding of the base Point.value (src/BAC0/core/devices/Points.py,
lines 147-172): return the cached value when the previous read is younger
than the TTL, otherwise read the network and refresh the cache. `net` maps a
read time to the value the network returns; the result carries the value,
the new cache and whether a network read occurred. The base class does not
append to the history (its _trend call is commented out in the source). -/
def point_value (net : Nat → α) (now : Nat) (cache : Option (Nat × α)) :
    α × Option (Nat × α) × Bool :=
  match cache with
  | some (ts, v) =>
    if now - ts < cacheDeltaMs then
      (v, some (ts, v), false)
    else
      let r := net now
      (r, some (now, r), true)
  | none =>
    let r := net now
    (r, some (now, r), true)

/-- The per-point state used by the numeric read path: TTL cache, history,
and configured history bound. -/
structure NPoint (α : Type) where
  cache : Option (Nat × α)
  hist : Hist α
  history_size : Option Nat
deriving DecidableEq, Repr

/-- Embedding of NumericPoint.value (src/BAC0/core/devices/Points.py, lines
801-805): read through the base Point.value (TTL cache) and then call
self._trend(res) unconditionally, cache hit or not. -/
def numericPoint_value (net : Nat → α) (now : Nat) (p : NPoint α) :
    α × NPoint α × Bool :=
  let r := point_value net now p.cache
  let h := trend p.history_size p.hist now r.1
  (r.1, { cache := r.2.1, hist := h.2, history_size := h.1 }, r.2.2)

/-- Errors Device.__init__ can raise. -/
inductive InitErr where
  | badDeviceDefinition
  | fileNotFound
deriving DecidableEq, Repr

/-- The part of the device record Device.__init__ builds that the
construction claims are about. `network` is the truthiness of the network
handle. -/
structure DevRec where
  address : Option String
  device_id : Option Int
  network : Bool
  db_name : Option String
  initialized : Bool
deriving DecidableEq, Repr

/-- Python truthiness of an optional string (None and "" are falsy). -/
def pyTruthyStrOpt : Option String → Bool
  | none => false
  | some s => !(s == "")

/-- Python filename.split(".")[0]: the prefix before the first dot. -/
def stemOf (s : String) : String := s.takeWhile (fun c => c != '.')

/-- Embedding of Device.__init__ (src/BAC0/core/devices/Device.py, lines
104-180). `fs` tells whether a filename exists on disk (os.path.isfile).
With a truthy from_backup the network handle is cleared, the db name is set
to the filename's first-dot stem when the file exists, and a missing file is
FileNotFoundError; without a backup, network, address and a non-None
device_id are all required, else BadDeviceDefinition. `initialized` becomes
true only when no error is raised (the flag is set last in the source). -/
def device_init (fs : String → Bool) (address : Option String)
    (device_id : Option Int) (network : Bool) (from_backup : Option String) :
    DevRec × Option InitErr :=
  let d0 : DevRec :=
    { address := address, device_id := device_id, network := network,
      db_name := none, initialized := false }
  if pyTruthyStrOpt from_backup = true then
    let filename := from_backup.getD ""
    let d1 := { d0 with network := false }
    if fs filename = true then
      ({ d1 with db_name := some (stemOf filename), initialized := true }, none)
    else
      (d1, some InitErr.fileNotFound)
  else
    if network && pyTruthyStrOpt address && device_id.isSome then
      ({ d0 with initialized := true }, none)
    else
      (d0, some InitErr.badDeviceDefinition)

/-- C1: for every online point, Point._setitem routes a requested value by the
point's protocol object type: a value destined for a "value" object (or a
characterstring object) is written directly; a value destined for an "output"
object is overridden at priority 8, or released to automatic when the
sentinel "auto" is given; every other object kind (inputs) is handled by
simulation, with "auto" releasing the simulation. -/
theorem setitem_routes_by_object_type :
    (∀ t v, strHas t "characterstring" = true →
      setitem t v = Except.ok (SetAction.write v)) ∧
    (∀ t v, strHas t "characterstring" = false → strHas t "value" = true →
      lowerStr v ≠ "auto" → setitem t v = Except.ok (SetAction.write v)) ∧
    (∀ t v, strHas t "characterstring" = false → strHas t "value" = false →
      strHas t "output" = true → lowerStr v = "auto" →
      setitem t v = Except.ok SetAction.auto) ∧
    (∀ t v, strHas t "characterstring" = false → strHas t "value" = false →
      strHas t "output" = true → lowerStr v ≠ "auto" →
      setitem t v = Except.ok (SetAction.ovr 8 v)) ∧
    (∀ t v, strHas t "characterstring" = false → strHas t "value" = false →
      strHas t "output" = false → lowerStr v = "auto" →
      setitem t v = Except.ok SetAction.release) ∧
    (∀ t v, strHas t "characterstring" = false → strHas t "value" = false →
      strHas t "output" = false → lowerStr v ≠ "auto" →
      setitem t v = Except.ok (SetAction.sim v)) := by
  refine ⟨?_, ?_, ?_, ?_, ?_, ?_⟩ <;> intro t v <;> intros <;>
    simp_all [setitem]

/-- Witness for setitem_routes_by_object_type: one concrete input per branch
of the routing. -/
theorem setitem_routes_by_object_type_witness :
    setitem "characterstringValue" "hello" = Except.ok (SetAction.write "hello") ∧
    setitem "analog-value" "21.5" = Except.ok (SetAction.write "21.5") ∧
    setitem "analog-output" "Auto" = Except.ok SetAction.auto ∧
    setitem "analog-output" "42" = Except.ok (SetAction.ovr 8 "42") ∧
    setitem "analog-input" "auto" = Except.ok SetAction.release ∧
    setitem "analog-input" "20" = Except.ok (SetAction.sim "20") :=
  ⟨setitem_routes_by_object_type.1 "characterstringValue" "hello" (by decide),
   setitem_routes_by_object_type.2.1 "analog-value" "21.5" (by decide)
     (by decide) (by decide),
   setitem_routes_by_object_type.2.2.1 "analog-output" "Auto" (by decide)
     (by decide) (by decide) (by decide),
   setitem_routes_by_object_type.2.2.2.1 "analog-output" "42" (by decide)
     (by decide) (by decide) (by decide),
   setitem_routes_by_object_type.2.2.2.2.1 "analog-input" "auto" (by decide)
     (by decide) (by decide) (by decide),
   setitem_routes_by_object_type.2.2.2.2.2 "analog-input" "20" (by decide)
     (by decide) (by decide) (by decide)⟩

/-- C3: on a point whose priority array is supported but whose 16 slots are
all empty, the embedded Point.is_overridden still returns true, because the
synchronous property never awaits read_priority_array and tests the
truthiness of the coroutine objects returned by priority(8)/priority(1);
the claimed slot-based reading of the same state is false. -/
theorem is_overridden_always_true_bug :
    is_overridden_code { priorityArraySupported := true, slots := fun _ => none } = true ∧
    is_overridden_claimed { priorityArraySupported := true, slots := fun _ => none } = false := by
  exact ⟨rfl, rfl⟩

/-- C7 (amended): in the Disconnected state every listed connected-only
operation raises the not-connected error, but in the DatabaseBacked state
only polling, point-list build and writing a point by name do among the
listed operations; point lookup and indexing, iteration, length, the bulk
dataframe read and the aggregate views are inherited from the connected
state and served from the restored offline points. -/
theorem notConnected_rejection_table (op : DevOp) :
    deviceDisconnected_rejects op = true ∧
    (deviceFromDB_rejects op = true ↔
      (op = DevOp.poll ∨ op = DevOp.buildPointList ∨ op = DevOp.setitem)) := by
  cases op <;> simp [deviceDisconnected_rejects, deviceFromDB_rejects]

/-- Witness for notConnected_rejection_table at the polling operation. -/
theorem notConnected_rejection_table_witness :
    deviceDisconnected_rejects DevOp.poll = true ∧
    (deviceFromDB_rejects DevOp.poll = true ↔
      (DevOp.poll = DevOp.poll ∨ DevOp.poll = DevOp.buildPointList ∨
        DevOp.poll = DevOp.setitem)) :=
  notConnected_rejection_table DevOp.poll

/-- Counterexample to C7 as stated: in the DatabaseBacked state the length
operation does not raise the not-connected error. -/
theorem dbbacked_len_not_rejected :
    deviceFromDB_rejects DevOp.lenPoints = false := rfl

/-- Counterexample to C8 as stated: an "output"-kind point receiving the
sentinel "auto" does not raise the release-without-override error;
Point._setitem unconditionally routes it to Point.auto (a "null" write at
priority 8) without consulting the overridden state. -/
theorem output_auto_releases_without_error :
    setitem "analog-output" "auto" = Except.ok SetAction.auto := rfl

/-- C8 (amended): the release-without-override ValueError is raised by
Point._setitem for "value"-kind (non-characterstring) objects receiving
"auto"; an "output"-kind object receiving "auto" is instead routed to
Point.auto, releasing priority 8 regardless of the overridden state. -/
theorem auto_release_error_policy :
    (∀ t v, strHas t "characterstring" = false → strHas t "value" = true →
      lowerStr v = "auto" →
      setitem t v =
        Except.error "Value was not simulated or overridden, cannot release to auto") ∧
    (∀ t v, strHas t "characterstring" = false → strHas t "value" = false →
      strHas t "output" = true → lowerStr v = "auto" →
      setitem t v = Except.ok SetAction.auto) := by
  constructor <;> intro t v <;> intros <;> simp_all [setitem]

/-- Witness for auto_release_error_policy at concrete inputs. -/
theorem auto_release_error_policy_witness :
    setitem "multi-state-value" "auto" =
      Except.error "Value was not simulated or overridden, cannot release to auto" ∧
    setitem "binary-output" "auto" = Except.ok SetAction.auto :=
  ⟨auto_release_error_policy.1 "multi-state-value" "auto" (by decide)
     (by decide) (by decide),
   auto_release_error_policy.2 "binary-output" "auto" (by decide) (by decide)
     (by decide) (by decide)⟩

theorem length_lastN {α : Type} (n : Nat) (l : List α) :
    (lastN n l).length = min l.length n := by
  simp only [lastN, List.length_drop]
  omega

theorem lastN_of_le {α : Type} {n : Nat} {l : List α} (h : l.length ≤ n) :
    lastN n l = l := by
  simp [lastN, Nat.sub_eq_zero_of_le h]

theorem drop_append_single {α : Type} (k : Nat) (l : List α) (x : α)
    (h : k ≤ l.length) :
    List.drop k (l ++ [x]) = List.drop k l ++ [x] := by
  rw [List.drop_append_eq_append_drop]
  have hk : k - l.length = 0 := by omega
  simp [hk]

theorem lastN_append_lastN {α : Type} (n : Nat) (l : List α) (x : α) :
    lastN n (lastN n l ++ [x]) = lastN n (l ++ [x]) := by
  rcases Nat.le_total l.length n with h | h2
  · rw [lastN_of_le h]
  · rcases Nat.eq_zero_or_pos n with hn | hn
    · subst hn
      have g : ∀ (m : List α), lastN 0 m = [] := by
        intro m
        have hm := length_lastN 0 m
        exact List.length_eq_zero.mp (by omega)
      rw [g, g]
    · have hlen2 : l.length - (l.length - n) + 1 - n = 1 := by omega
      have hrhs : l.length + 1 - n ≤ l.length := by omega
      unfold lastN
      simp only [List.length_append, List.length_drop, List.length_singleton]
      rw [hlen2]
      rw [drop_append_single 1 (List.drop (l.length - n) l) x
            (by rw [List.length_drop]; omega),
          drop_append_single (l.length + 1 - n) l x hrhs,
          List.drop_drop]
      have e2 : l.length - n + 1 = l.length + 1 - n := by omega
      rw [e2]

theorem trend_lastN {α : Type} (B : Nat) (hB : 1 ≤ B) (fts : List Nat)
    (fvs : List α) (hlen : fts.length = fvs.length) (now : Nat) (v : α) :
    trend (some B) { ts := lastN B fts, vals := lastN B fvs } now v =
      (some B, { ts := lastN B (fts ++ [now]), vals := lastN B (fvs ++ [v]) }) := by
  have hcl : ¬ B < 1 := by omega
  simp only [trend, hcl, if_false]
  split
  case isTrue h =>
    rw [lastN_append_lastN, lastN_append_lastN]
  case isFalse h =>
    rw [List.length_append] at h
    have hfl : fts.length + 1 ≤ B := by
      have h1 := length_lastN B fts
      omega
    rw [lastN_of_le (l := fts) (by omega),
        lastN_of_le (l := fvs) (by omega),
        lastN_of_le (by rw [List.length_append]; simp; omega),
        lastN_of_le (by rw [List.length_append]; simp; omega)]

theorem runTrend_lastN {α : Type} (B : Nat) (hB : 1 ≤ B)
    (reads : List (Nat × α)) :
    ∀ (fts : List Nat) (fvs : List α), fts.length = fvs.length →
      runTrend (some B) { ts := lastN B fts, vals := lastN B fvs } reads =
        (some B, { ts := lastN B (fts ++ reads.map Prod.fst),
                   vals := lastN B (fvs ++ reads.map Prod.snd) }) := by
  induction reads with
  | nil =>
    intro fts fvs h
    simp [runTrend]
  | cons hd tl ih =>
    intro fts fvs h
    obtain ⟨t, v⟩ := hd
    simp only [runTrend]
    rw [trend_lastN B hB fts fvs h t v]
    rw [ih (fts ++ [t]) (fvs ++ [v]) (by simp [h])]
    simp

/-- C4 (amended): with a configured history bound B at least 1, after any
sequence of N value reads the History holds the most recent entries in order
(oldest evicted first) out of the seeded initial entry followed by the N
reads, its length is min (N + 1) B rather than min N B (Point.__init__ seeds
one (timestamp, presentValue) entry before any read), and the timestamp and
value lists always have equal length. -/
theorem history_bound_after_reads {α : Type} (B : Nat) (hB : 1 ≤ B) (t0 : Nat)
    (pv : α) (reads : List (Nat × α)) :
    (runTrend (some B) (initHist t0 pv) reads).2.ts =
        lastN B (t0 :: reads.map Prod.fst) ∧
    (runTrend (some B) (initHist t0 pv) reads).2.vals =
        lastN B (pv :: reads.map Prod.snd) ∧
    (runTrend (some B) (initHist t0 pv) reads).2.ts.length =
        min (reads.length + 1) B ∧
    (runTrend (some B) (initHist t0 pv) reads).2.ts.length =
        (runTrend (some B) (initHist t0 pv) reads).2.vals.length := by
  have h0 : initHist t0 pv =
      ({ ts := lastN B [t0], vals := lastN B [pv] } : Hist α) := by
    rw [lastN_of_le (by simp; omega), lastN_of_le (by simp; omega)]
    rfl
  rw [h0, runTrend_lastN B hB reads [t0] [pv] (by simp)]
  refine ⟨by simp, by simp, ?_, ?_⟩
  · rw [length_lastN]
    simp
  · rw [length_lastN, length_lastN]
    simp

/-- Witness for history_bound_after_reads: bound 5, one read. -/
theorem history_bound_after_reads_witness :
    (runTrend (some 5) (initHist 0 (0 : Nat)) [(1, 42)]).2.ts =
        lastN 5 (0 :: ([((1 : Nat), (42 : Nat))].map Prod.fst)) ∧
    (runTrend (some 5) (initHist 0 (0 : Nat)) [(1, 42)]).2.vals =
        lastN 5 (0 :: ([((1 : Nat), (42 : Nat))].map Prod.snd)) ∧
    (runTrend (some 5) (initHist 0 (0 : Nat)) [(1, 42)]).2.ts.length =
        min ([((1 : Nat), (42 : Nat))].length + 1) 5 ∧
    (runTrend (some 5) (initHist 0 (0 : Nat)) [(1, 42)]).2.ts.length =
        (runTrend (some 5) (initHist 0 (0 : Nat)) [(1, 42)]).2.vals.length :=
  history_bound_after_reads 5 (by decide) 0 0 [(1, 42)]

/-- Counterexample to C4 as stated: with bound B = 5, after N = 1 read the
History length is 2 (the seeded initial entry plus the read), not
min N B = 1. -/
theorem history_min_counterexample :
    (runTrend (some 5) (initHist 0 (0 : Nat)) [(1, 42)]).2.ts.length ≠
      min 1 5 := by
  decide

theorem numericPoint_value_state {α : Type} (net : Nat → α) (now : Nat)
    (p : NPoint α) (hz : p.history_size = none) :
    ∃ tsc : Nat,
      numericPoint_value net now p =
        ((numericPoint_value net now p).1,
         { cache := some (tsc, (numericPoint_value net now p).1),
           hist := { ts := p.hist.ts ++ [now],
                     vals := p.hist.vals ++ [(numericPoint_value net now p).1] },
           history_size := none },
         (numericPoint_value net now p).2.2) := by
  rcases hq : p.cache with _ | ⟨ts0, v0⟩
  · exact ⟨now, by simp [numericPoint_value, point_value, trend, hq, hz]⟩
  · by_cases hhit : now - ts0 < cacheDeltaMs
    · exact ⟨ts0, by simp [numericPoint_value, point_value, trend, hq, hz, hhit]⟩
    · exact ⟨now, by simp [numericPoint_value, point_value, trend, hq, hz, hhit]⟩

theorem numericPoint_value_hit {α : Type} (net : Nat → α) (now : Nat)
    (p : NPoint α) (hz : p.history_size = none) (tc : Nat) (vc : α)
    (hc : p.cache = some (tc, vc)) (h : now - tc < cacheDeltaMs) :
    numericPoint_value net now p =
      (vc, { cache := p.cache,
             hist := { ts := p.hist.ts ++ [now], vals := p.hist.vals ++ [vc] },
             history_size := none }, false) := by
  simp [numericPoint_value, point_value, trend, hc, hz, h]

/-- C2 (amended): for a numeric point with unbounded history, when a second
value read is issued while the cache entry left by a first read is younger
than the 1-second TTL, the second read returns the same value as the first
and performs no network read; but each of the two reads appends one History
entry (the first read appended (t1, r1), and the second read appends another
entry even though it is a cache hit), so together they append two entries,
not one. -/
theorem numericPoint_value_ttl {α : Type} (net : Nat → α) (t1 t2 : Nat)
    (p0 : NPoint α) (r1 : α) (p1 : NPoint α) (b1 : Bool)
    (hz : p0.history_size = none)
    (h1 : numericPoint_value net t1 p0 = (r1, p1, b1))
    (tc : Nat) (vc : α) (hc : p1.cache = some (tc, vc))
    (httl : t2 - tc < cacheDeltaMs) :
    numericPoint_value net t2 p1 =
      (r1, { cache := p1.cache,
             hist := { ts := p1.hist.ts ++ [t2], vals := p1.hist.vals ++ [r1] },
             history_size := none }, false) ∧
    p1.hist.ts = p0.hist.ts ++ [t1] := by
  obtain ⟨tsc, hstate⟩ := numericPoint_value_state net t1 p0 hz
  rw [h1] at hstate
  have hp1 : p1 =
      { cache := some (tsc, r1),
        hist := { ts := p0.hist.ts ++ [t1], vals := p0.hist.vals ++ [r1] },
        history_size := none } := by
    have := congrArg (fun x => x.2.1) hstate
    simpa using this
  have hz1 : p1.history_size = none := by rw [hp1]
  have hvc : vc = r1 := by
    rw [hp1] at hc
    simp at hc
    exact hc.2.symm
  subst hvc
  refine ⟨numericPoint_value_hit net t2 p1 hz1 tc vc hc httl, ?_⟩
  rw [hp1]

/-- Witness for numericPoint_value_ttl: constant network value 7, first read
at t = 2000 ms from a fresh point, second read at t = 2500 ms. -/
theorem numericPoint_value_ttl_witness :
    numericPoint_value (fun _ => (7 : Int)) 2500
        ({ cache := some (2000, 7), hist := { ts := [0, 2000], vals := [0, 7] },
           history_size := none } : NPoint Int) =
      (7, { cache := some (2000, (7 : Int)),
            hist := { ts := [0, 2000, 2500], vals := [0, 7, 7] },
            history_size := none }, false) ∧
    ([0, 2000] : List Nat) = [0] ++ [2000] :=
  numericPoint_value_ttl (fun _ => (7 : Int)) 2000 2500
    { cache := none, hist := { ts := [0], vals := [0] }, history_size := none }
    7
    { cache := some (2000, 7), hist := { ts := [0, 2000], vals := [0, 7] },
      history_size := none }
    true rfl rfl 2000 7 rfl (by decide)

/-- Counterexample to C2 as stated: a fresh numeric point (one seeded history
entry) read at t = 2000 ms and again at t = 2500 ms (within the TTL) ends
with History length 3, not the length 2 that "together they append exactly
one entry" would give. -/
theorem ttl_double_read_appends_two_not_one :
    (numericPoint_value (fun _ => (7 : Int)) 2500
      (numericPoint_value (fun _ => (7 : Int)) 2000
        ({ cache := none, hist := { ts := [0], vals := [0] },
           history_size := none } : NPoint Int)).2.1).2.1.hist.ts.length ≠ 2 := by
  decide

/-- C5: Point._poll with command "stop"/False/0 or delay 0 stops and clears
any existing polling task; starting when no task exists creates and starts
one; starting while a task is running stops the old task before starting a
new one with the new delay; and a task object that exists but is not marked
running raises a runtime error. -/
theorem point_poll_policy :
    (∀ cmd delay s p, pollStopRequested cmd delay = true → s.task = some p →
      point_poll cmd delay s =
        Except.ok (({ task := none, running := false } : PollTaskState),
          [PollAct.stopTask])) ∧
    (∀ cmd delay s, pollStopRequested cmd delay = false → s.task = none →
      point_poll cmd delay s =
        Except.ok (({ task := some delay, running := true } : PollTaskState),
          [PollAct.startTask delay])) ∧
    (∀ cmd delay s p, pollStopRequested cmd delay = false → s.task = some p →
      s.running = true →
      point_poll cmd delay s =
        Except.ok (({ task := some delay, running := true } : PollTaskState),
          [PollAct.stopTask, PollAct.startTask delay])) ∧
    (∀ cmd delay s p, pollStopRequested cmd delay = false → s.task = some p →
      s.running = false →
      point_poll cmd delay s = Except.error "Stop polling before redefining it") := by
  refine ⟨?_, ?_, ?_, ?_⟩ <;> intro cmd delay s <;> intros <;>
    simp_all [point_poll]

/-- Witness for point_poll_policy: a "stop" command on a running task, a
start with no task, a start over a running task, and a start over a stale
non-running task object. -/
theorem point_poll_policy_witness :
    point_poll (PyCmd.pstr "Stop") 10 { task := some 10, running := true } =
      Except.ok (({ task := none, running := false } : PollTaskState),
        [PollAct.stopTask]) ∧
    point_poll (PyCmd.pstr "start") 10 { task := none, running := false } =
      Except.ok (({ task := some 10, running := true } : PollTaskState),
        [PollAct.startTask 10]) ∧
    point_poll (PyCmd.pstr "start") 7 { task := some 10, running := true } =
      Except.ok (({ task := some 7, running := true } : PollTaskState),
        [PollAct.stopTask, PollAct.startTask 7]) ∧
    point_poll (PyCmd.pstr "start") 7 { task := some 10, running := false } =
      Except.error "Stop polling before redefining it" :=
  ⟨point_poll_policy.1 (PyCmd.pstr "Stop") 10 _ 10 (by decide) rfl,
   point_poll_policy.2.1 (PyCmd.pstr "start") 10 _ (by decide) rfl,
   point_poll_policy.2.2.1 (PyCmd.pstr "start") 7 _ 10 (by decide) rfl rfl,
   point_poll_policy.2.2.2 (PyCmd.pstr "start") 7 _ 10 (by decide) rfl rfl⟩

/-- C6: from Disconnected with a live network, connect reads the object name
and the segmentation capability and enters the full connected state when the
capability is not the no-segmentation value 3, the degraded state when it is
3 or on a segmentation-specific failure, remains Disconnected on no-response
without a persisted database name, and enters the database-backed state on
no-response with one; the match is exhaustive over the read outcomes, so no
other target state is reachable from this transition. -/
theorem disconnected_connect_targets :
    (∀ s0 db n, n ≠ 3 →
      disconnected_connect s0 (ConnectOutcome.ok n) db =
        (DeviceState.rpmConnected, true)) ∧
    (∀ s0 db, disconnected_connect s0 (ConnectOutcome.ok 3) db =
      (DeviceState.rpdConnected, false)) ∧
    (∀ s0 db, disconnected_connect s0 ConnectOutcome.segmentationNotSupported db =
      (DeviceState.rpdConnected, false)) ∧
    (∀ s0 f, disconnected_connect s0 ConnectOutcome.noResponse (some f) =
      (DeviceState.fromDB, s0)) ∧
    (∀ s0, disconnected_connect s0 ConnectOutcome.noResponse none =
      (DeviceState.disconnected, s0)) := by
  refine ⟨?_, ?_, ?_, ?_, ?_⟩ <;> intro s0 <;> intros <;>
    simp_all [disconnected_connect]

/-- Witness for disconnected_connect_targets: a segmented capability value. -/
theorem disconnected_connect_targets_witness :
    disconnected_connect true (ConnectOutcome.ok 0) none =
      (DeviceState.rpmConnected, true) :=
  disconnected_connect_targets.1 true none 0 (by decide)

/-- C9: Device.__init__ without a backup file fails with BadDeviceDefinition
whenever the address, the device identifier or the network handle is
missing, leaving the device unmarked as initialized; with all three supplied
construction succeeds and marks it initialized. -/
theorem device_init_requires_identity :
    (∀ fs addr did net, (addr = none ∨ did = none ∨ net = false) →
      device_init fs addr did net none =
        ({ address := addr, device_id := did, network := net, db_name := none,
           initialized := false },
         some InitErr.badDeviceDefinition)) ∧
    (∀ fs a i, a ≠ "" →
      device_init fs (some a) (some i) true none =
        ({ address := some a, device_id := some i, network := true,
           db_name := none, initialized := true },
         none)) := by
  constructor
  · intro fs addr did net h
    rcases h with h | h | h <;> subst h <;>
      simp [device_init, pyTruthyStrOpt]
  · intro fs a i h
    simp [device_init, pyTruthyStrOpt, h]

/-- Witness for device_init_requires_identity: construction with everything
missing fails, construction with address, device id and network succeeds. -/
theorem device_init_requires_identity_witness :
    device_init (fun _ => false) none none false none =
      ({ address := none, device_id := none, network := false, db_name := none,
         initialized := false },
       some InitErr.badDeviceDefinition) ∧
    device_init (fun _ => false) (some "2:5") (some 5) true none =
      ({ address := some "2:5", device_id := some 5, network := true,
         db_name := none, initialized := true },
       none) :=
  ⟨device_init_requires_identity.1 (fun _ => false) none none false
     (Or.inl rfl),
   device_init_requires_identity.2 (fun _ => false) "2:5" 5 (by decide)⟩

/-- C10: Device.__init__ with a from_backup filename that does not exist on
disk fails with the file-not-found error (not BadDeviceDefinition), whatever
the other arguments; when the file exists, the network handle is cleared and
the persistence name is set to the filename's stem before the first dot. -/
theorem device_init_from_backup :
    (∀ fs addr did net f, f ≠ "" → fs f = false →
      device_init fs addr did net (some f) =
        ({ address := addr, device_id := did, network := false, db_name := none,
           initialized := false },
         some InitErr.fileNotFound)) ∧
    (∀ fs addr did net f, f ≠ "" → fs f = true →
      device_init fs addr did net (some f) =
        ({ address := addr, device_id := did, network := false,
           db_name := some (stemOf f), initialized := true },
         none)) := by
  constructor <;> intro fs addr did net f hne hfs <;>
    simp [device_init, pyTruthyStrOpt, hne, hfs]

/-- Witness for device_init_from_backup: a missing and an existing backup
file, with address, device id and network all omitted. -/
theorem device_init_from_backup_witness :
    device_init (fun _ => false) none none false (some "backup.db") =
      ({ address := none, device_id := none, network := false, db_name := none,
         initialized := false },
       some InitErr.fileNotFound) ∧
    device_init (fun _ => true) none none false (some "backup.db") =
      ({ address := none, device_id := none, network := false,
         db_name := some (stemOf "backup.db"), initialized := true },
       none) :=
  ⟨device_init_from_backup.1 (fun _ => false) none none false "backup.db"
     (by decide) rfl,
   device_init_from_backup.2 (fun _ => true) none none false "backup.db"
     (by decide) rfl⟩

end BAC0
